import Mathlib

/-!
Formal model of the continuous-authentication core of the IntelliSecure
banking backend: the rule-based threat scoring engine
(backend/app/core/threat_engine.py), the heartbeat monitoring endpoint
(backend/app/api/monitoring.py), the facial CAPTCHA verification endpoint
(backend/app/api/facial_captcha.py), the liveness detector
(backend/app/core/liveness_detector.py) and the face verification module
(backend/app/core/face_verification.py).

Modelling conventions:
* Python floats are modelled as exact rationals; `round(x, 2)` and the
  `.2f` format are modelled by round-half-to-even on rationals.
* `datetime` arithmetic is modelled by its result: the session age in
  hours (`none` for an absent or unparsable creation timestamp).
* The `ipaddress` library comparison of two distinct, non-equal IP
  strings is modelled by an oracle parameter
  `ipSame24 : String → String → Bool` (`true` = the current address lies
  in the /24 network of the stored one; a parse failure in the source
  gives the same score 25 as a different subnet, so it is folded into
  `false`).
* AES decryption of the stored face vector is an external service; it is
  modelled by its outcome, an `Option (List ℚ)` where `none` means the
  decryption raised an exception.
* Euclidean distances are compared in squared form: for nonnegative
  `d` and `t`, `d < t` is equivalent to `d * d < t * t`, so
  `‖a - b‖ < t` is embedded as `distSq a b < t * t`.
* Database writes and websocket sends performed by an endpoint are
  recorded in an effect trace, listed in program order.
-/

namespace ISB

/-- Threat thresholds from backend/app/core/config.py:
`THREAT_LOCK_THRESHOLD = 75`. -/
def THREAT_LOCK_THRESHOLD : ℚ := 75

/-- From backend/app/core/config.py: `THREAT_LOGOUT_THRESHOLD = 80`. -/
def THREAT_LOGOUT_THRESHOLD : ℚ := 80

/-- From backend/app/core/config.py: `MAX_CAPTCHA_ATTEMPTS = 3`. -/
def MAX_CAPTCHA_ATTEMPTS : ℕ := 3

/-- Round half to even to the nearest integer, the rounding used by
Python `round` and numeric formatting. -/
def rhe (y : ℚ) : ℤ :=
  if y - ⌊y⌋ < 1/2 then ⌊y⌋
  else if 1/2 < y - ⌊y⌋ then ⌊y⌋ + 1
  else if ⌊y⌋ % 2 = 0 then ⌊y⌋ else ⌊y⌋ + 1

/-- Python `round(x, 2)`. -/
def round2 (x : ℚ) : ℚ := (rhe (100 * x) : ℚ) / 100

/-- Session-binding snapshot handed to the engine by `process_heartbeat`
(the `session_data` dict).  The browser signature is carried by the source
dict but never read by any rule, so it is omitted.  `created_age_hours`
models the parsed `created_at` timestamp by the resulting session age in
hours at evaluation time (`none` = field absent or unparsable, which the
source folds into a 0 sub-score). -/
structure SessionData where
  device_fingerprint : Option String
  ip_address : Option String
  created_age_hours : Option ℚ
  stored_face_embedding : Option (List ℚ)
deriving DecidableEq, Repr

/-- The `current_signals` dict handed to the engine.  `multiple_faces`
and `camera_blocked` are nullable booleans in the request schema but
every read is a Python truthiness test, so `None` behaves exactly like
`False` and they are modelled as `Bool`; `face_present` is kept as
`Option Bool` because the source distinguishes `None` from `False`
(`signals.get("face_present") == False`). -/
structure CurrentSignals where
  device_fingerprint : Option String
  ip_address : Option String
  keystroke_deviation : ℚ
  mouse_deviation : ℚ
  face_present : Option Bool
  multiple_faces : Bool
  camera_ready : Bool
  camera_blocked : Bool
  facial_captcha_failed : ℤ
  mouse_entropy : ℚ
  mouse_velocity_variance : ℚ
  live_face_embedding : Option (List ℚ)
deriving DecidableEq, Repr

/-- `ThreatEngine._check_device_mismatch`: 0 when either fingerprint is
falsy (absent or empty string), 40 when both are present and unequal. -/
def check_device_mismatch (sf cf : Option String) : ℚ :=
  match sf, cf with
  | some s, some c =>
      if s = "" ∨ c = "" then 0
      else if s ≠ c then 40 else 0
  | _, _ => 0

/-- `ThreatEngine._check_ip_drift`: 0 when either address is falsy or
both are equal; otherwise 10 when the `ipaddress` comparison puts the
current address in the same /24 network, else 25 (a parse failure also
yields 25 and is folded into the `false` branch of the oracle). -/
def check_ip_drift (ipSame24 : String → String → Bool) (si ci : Option String) : ℚ :=
  match si, ci with
  | some s, some c =>
      if s = "" ∨ c = "" then 0
      else if s = c then 0
      else if ipSame24 s c then 10 else 25
  | _, _ => 0

/-- `ThreatEngine._check_camera_anomalies`: +20 multiple faces,
+15 camera blocked, +15 face explicitly absent; capped at 35. -/
def check_camera_anomalies (cs : CurrentSignals) : ℚ :=
  min ((if cs.multiple_faces then 20 else 0)
      + (if cs.camera_blocked then 15 else 0)
      + (if cs.face_present = some false then 15 else 0)) 35

/-- `ThreatEngine._check_behavioral_anomalies`: +10 per deviation above
2.0 standard deviations; capped at 20. -/
def check_behavioral_anomalies (kd md : ℚ) : ℚ :=
  min ((if 2 < kd then 10 else 0) + (if 2 < md then 10 else 0)) 20

/-- `ThreatEngine._check_session_age`: minor penalty for old sessions;
absent or unparsable creation time gives 0. -/
def check_session_age (age : Option ℚ) : ℚ :=
  match age with
  | none => 0
  | some h => if 24 < h then 5 else if 12 < h then 2 else 0

/-- Squared Euclidean distance between two embeddings (the source
computes `np.linalg.norm(v1 - v2)` and compares it with a nonnegative
threshold, which is equivalent to comparing squares). -/
def distSq (a b : List ℚ) : ℚ :=
  ((a.zipWith (fun x y => x - y) b).map (fun x => x * x)).sum

/-- Squared form of the face-match distance threshold 0.55 used by the
threat engine and by `verify_face_match`. -/
def faceThresholdSq : ℚ := (11/20) * (11/20)

/-- `ThreatEngine._check_face_mismatch`: 0 when either embedding is
falsy (absent or empty) or not 128-dimensional; +50 when the Euclidean
distance is at least 0.55. -/
def check_face_mismatch (live stored : Option (List ℚ)) : ℚ :=
  match live, stored with
  | some l, some s =>
      if l = [] ∨ s = [] then 0
      else if l.length ≠ 128 ∨ s.length ≠ 128 then 0
      else if faceThresholdSq ≤ distSq l s then 50 else 0
  | _, _ => 0

/-- `ThreatEngine._check_mouse_behavior`: low entropy +15 (or +8 when
moderately low), low velocity variance +10; capped at 25. -/
def check_mouse_behavior (ent vv : ℚ) : ℚ :=
  min ((if ent < 3/10 then 15 else if ent < 1/2 then 8 else 0)
      + (if vv < 1/5 then 10 else 0)) 25

/-- `ThreatEngine._get_recommended_action`. -/
def get_recommended_action (score : ℚ) : String :=
  if THREAT_LOGOUT_THRESHOLD ≤ score then "FORCE_LOGOUT"
  else if THREAT_LOCK_THRESHOLD ≤ score then "LOCK_SESSION"
  else if 20 ≤ score then "INCREASE_MONITORING"
  else "CONTINUE"

/-- `ThreatEngine.should_trigger_facial_captcha`. -/
def should_trigger_facial_captcha (score : ℚ) : Bool :=
  decide (THREAT_LOCK_THRESHOLD ≤ score)

/-- Per-rule breakdown returned by the engine (one entry per rule, in
source order). -/
structure Breakdown where
  device_mismatch : ℚ
  ip_drift : ℚ
  camera_anomalies : ℚ
  behavioral_anomalies : ℚ
  facial_captcha_failure : ℚ
  ml_anomaly : ℚ
  face_mismatch : ℚ
  mouse_behavior : ℚ
  session_age : ℚ
deriving DecidableEq, Repr

/-- Sum of all nine rule contributions, before the cap at 100. -/
def engineTotal (ipSame24 : String → String → Bool) (sd : SessionData)
    (cs : CurrentSignals) (ml : ℚ) : ℚ :=
  check_device_mismatch sd.device_fingerprint cs.device_fingerprint
  + check_ip_drift ipSame24 sd.ip_address cs.ip_address
  + check_camera_anomalies cs
  + check_behavioral_anomalies cs.keystroke_deviation cs.mouse_deviation
  + (cs.facial_captcha_failed : ℚ) * 45
  + ml * 20
  + check_face_mismatch cs.live_face_embedding sd.stored_face_embedding
  + check_mouse_behavior cs.mouse_entropy cs.mouse_velocity_variance
  + check_session_age sd.created_age_hours

/-- The capped score `min(score, 100)` of the source, before rounding. -/
def cappedScore (ipSame24 : String → String → Bool) (sd : SessionData)
    (cs : CurrentSignals) (ml : ℚ) : ℚ :=
  min (engineTotal ipSame24 sd cs ml) 100

/-- The trigger list built by `calculate_threat_score`, in source
order. -/
def engineTriggers (ipSame24 : String → String → Bool) (sd : SessionData)
    (cs : CurrentSignals) (ml : ℚ) : List String :=
  (if 0 < check_device_mismatch sd.device_fingerprint cs.device_fingerprint
    then ["Device mismatch detected"] else [])
  ++ (if 0 < check_ip_drift ipSame24 sd.ip_address cs.ip_address
    then ["IP address change detected"] else [])
  ++ (if 0 < check_camera_anomalies cs then
        (if cs.multiple_faces then ["Multiple faces detected"] else [])
        ++ (if cs.face_present = some false then ["No face detected"] else [])
        ++ (if cs.camera_blocked then ["Camera blocked or covered"] else [])
      else [])
  ++ (if 0 < check_behavioral_anomalies cs.keystroke_deviation cs.mouse_deviation
    then ["Unusual behavioral patterns"] else [])
  ++ (if 0 < (cs.facial_captcha_failed : ℚ) * 45
    then ["Facial CAPTCHA verification failed"] else [])
  ++ (if 5 < ml * 20 then ["ML model detected anomaly"] else [])
  ++ (if 0 < check_face_mismatch cs.live_face_embedding sd.stored_face_embedding
    then ["Live face does not match database"] else [])
  ++ (if 0 < check_mouse_behavior cs.mouse_entropy cs.mouse_velocity_variance
    then ["Bot-like mouse behavior detected"] else [])

/-- Engine output (the `timestamp` field of the source dict is an
external clock read and is omitted). -/
structure ThreatResult where
  score : ℚ
  breakdown : Breakdown
  triggers : List String
  recommended_action : String
deriving DecidableEq, Repr

/-- `ThreatEngine.calculate_threat_score`: sums the nine rule
sub-scores, caps the total at 100, rounds the reported score to two
decimals, and derives the recommended action from the capped
(unrounded) total. -/
def calculate_threat_score (ipSame24 : String → String → Bool)
    (sd : SessionData) (cs : CurrentSignals) (ml : ℚ) : ThreatResult :=
  { score := round2 (cappedScore ipSame24 sd cs ml)
    breakdown :=
      { device_mismatch := check_device_mismatch sd.device_fingerprint cs.device_fingerprint
        ip_drift := check_ip_drift ipSame24 sd.ip_address cs.ip_address
        camera_anomalies := check_camera_anomalies cs
        behavioral_anomalies := check_behavioral_anomalies cs.keystroke_deviation cs.mouse_deviation
        facial_captcha_failure := (cs.facial_captcha_failed : ℚ) * 45
        ml_anomaly := ml * 20
        face_mismatch := check_face_mismatch cs.live_face_embedding sd.stored_face_embedding
        mouse_behavior := check_mouse_behavior cs.mouse_entropy cs.mouse_velocity_variance
        session_age := check_session_age sd.created_age_hours }
    triggers := engineTriggers ipSame24 sd cs ml
    recommended_action := get_recommended_action (cappedScore ipSame24 sd cs ml) }

/-- Persisted per-session state read and written by the endpoints.  The
source session document additionally stores `threat_triggers`,
`threat_breakdown` and `last_heartbeat`, which are written on every
heartbeat but never read back by any decision; they are omitted here. -/
structure SessionState where
  device_fingerprint : Option String
  ip_address : Option String
  created_age_hours : Option ℚ
  is_locked : Bool
  requires_facial_captcha : Bool
  threat_score : ℚ
  no_face_streak : ℕ
  multi_face_streak : ℕ
deriving DecidableEq, Repr

/-- The `BehavioralSignals` request schema of a heartbeat
(backend/app/api/models.py).  Fields never read by `process_heartbeat`
(`keystroke_avg`, `keystroke_variance`, `mouse_speed_avg`) are omitted.
`multiple_faces`, `camera_ready` and `camera_blocked` are nullable in
the schema but every read is a truthiness test (for `camera_ready` an
`is True` test), so `None` behaves as `False` and they are modelled as
`Bool`; `face_present` stays `Option Bool` because the streak update
tests `is False`.  `facial_captcha_failed` is an unconstrained integer
in the schema. -/
structure HeartbeatSignals where
  keystroke_deviation : ℚ
  mouse_deviation : ℚ
  face_present : Option Bool
  multiple_faces : Bool
  camera_ready : Bool
  camera_blocked : Bool
  device_fingerprint : String
  ip_address : String
  facial_captcha_failed : ℤ
  live_face_embedding : Option (List ℚ)
  mouse_entropy : ℚ
  mouse_velocity_variance : ℚ
deriving DecidableEq, Repr

/-- Side effects performed by `process_heartbeat`, in program order.
The websocket broadcast payload carries the full threat result plus a
`requires_facial_captcha` flag; the fields relevant to ordering claims
(the score and that flag) are recorded. -/
inductive Effect where
  | broadcast (score : ℚ) (requiresCaptcha : Bool)
  | insertBehavioral (score : ℚ)
  | persistSession (score : ℚ)
  | deleteSession
deriving DecidableEq, Repr

/-- HTTP-error outcomes of `process_heartbeat`: 403 for a locked
session, 401 for a forced logout. -/
inductive PhError where
  | locked
  | terminated
deriving DecidableEq, Repr

/-- The `ThreatScoreResponse` returned by the heartbeat endpoint (the
`timestamp` field is an external clock read and is omitted). -/
structure ThreatResponse where
  score : ℚ
  breakdown : Breakdown
  triggers : List String
  recommended_action : String
  requires_facial_captcha : Bool
deriving DecidableEq, Repr

/-- Result of one heartbeat evaluation: the HTTP outcome, the session
state as left in the store (`none` when the session row was deleted by
a forced logout), and the effect trace in program order. -/
structure PHResult where
  outcome : Except PhError ThreatResponse
  session : Option SessionState
  trace : List Effect

/-- The `session_data` dict built by `process_heartbeat`: the session
binding plus the decrypted stored embedding (`enrolled` is the
truthiness of the stored `face_embedding_encrypted`; `decrypted` is the
outcome of `decrypt_embedding` on it, `none` when the decryption
raised, which the source logs and folds into an absent embedding). -/
def hbSessionData (enrolled : Bool) (decrypted : Option (List ℚ))
    (s : SessionState) : SessionData :=
  { device_fingerprint := s.device_fingerprint
    ip_address := s.ip_address
    created_age_hours := s.created_age_hours
    stored_face_embedding := if enrolled then decrypted else none }

/-- The `current_signals` dict built by `process_heartbeat`: face
signals are masked out when the camera is not ready. -/
def hbCurrentSignals (hb : HeartbeatSignals) : CurrentSignals :=
  { device_fingerprint := some hb.device_fingerprint
    ip_address := some hb.ip_address
    keystroke_deviation := hb.keystroke_deviation
    mouse_deviation := hb.mouse_deviation
    face_present := if hb.camera_ready then hb.face_present else none
    multiple_faces := if hb.camera_ready then hb.multiple_faces else false
    camera_ready := hb.camera_ready
    camera_blocked := hb.camera_blocked
    facial_captcha_failed := hb.facial_captcha_failed
    mouse_entropy := hb.mouse_entropy
    mouse_velocity_variance := hb.mouse_velocity_variance
    live_face_embedding := hb.live_face_embedding }

/-- Updated no-face streak: incremented while the camera is ready and
`face_present` is exactly `False`, reset to 0 otherwise. -/
def hbStreakNF (s : SessionState) (hb : HeartbeatSignals) : ℕ :=
  if hb.camera_ready then
    (if hb.face_present = some false then s.no_face_streak + 1 else 0)
  else 0

/-- Updated multi-face streak: incremented while the camera is ready
and `multiple_faces` holds, reset to 0 otherwise. -/
def hbStreakMF (s : SessionState) (hb : HeartbeatSignals) : ℕ :=
  if hb.camera_ready then
    (if hb.multiple_faces then s.multi_face_streak + 1 else 0)
  else 0

/-- The `force_lock_reasons` list of `process_heartbeat`. -/
def hbForceReasons (s : SessionState) (hb : HeartbeatSignals) : List String :=
  (if hb.camera_ready ∧ 5 ≤ hbStreakNF s hb then ["No face detected"] else [])
  ++ (if hb.camera_ready ∧ 3 ≤ hbStreakMF s hb then ["Multiple faces detected"] else [])

/-- The `threat_result` of a heartbeat before the force-lock
adjustments (the ML anomaly score is hard-coded to 0.0 in the
source). -/
def hbThreat0 (ipSame24 : String → String → Bool) (enrolled : Bool)
    (decrypted : Option (List ℚ)) (s : SessionState) (hb : HeartbeatSignals) :
    ThreatResult :=
  calculate_threat_score ipSame24 (hbSessionData enrolled decrypted s)
    (hbCurrentSignals hb) 0

/-- The `force_lock` flag: some force-lock reason fired. -/
def hbForce (s : SessionState) (hb : HeartbeatSignals) : Bool :=
  !(hbForceReasons s hb).isEmpty

/-- The trigger list after appending the not-yet-present force-lock
reasons. -/
def hbTriggers1 (ipSame24 : String → String → Bool) (enrolled : Bool)
    (decrypted : Option (List ℚ)) (s : SessionState) (hb : HeartbeatSignals) :
    List String :=
  (hbThreat0 ipSame24 enrolled decrypted s hb).triggers
  ++ (hbForceReasons s hb).filter
      (fun r => !((hbThreat0 ipSame24 enrolled decrypted s hb).triggers.contains r))

/-- The reported score after the force-lock floor at the lock
threshold. -/
def hbScore1 (ipSame24 : String → String → Bool) (enrolled : Bool)
    (decrypted : Option (List ℚ)) (s : SessionState) (hb : HeartbeatSignals) : ℚ :=
  if hbForce s hb then
    max (hbThreat0 ipSame24 enrolled decrypted s hb).score THREAT_LOCK_THRESHOLD
  else (hbThreat0 ipSame24 enrolled decrypted s hb).score

/-- The recommended action after the force-lock override. -/
def hbAction1 (ipSame24 : String → String → Bool) (enrolled : Bool)
    (decrypted : Option (List ℚ)) (s : SessionState) (hb : HeartbeatSignals) : String :=
  if hbForce s hb then "LOCK_SESSION"
  else (hbThreat0 ipSame24 enrolled decrypted s hb).recommended_action

/-- The `requires_captcha` flag of the heartbeat response: high score,
or live-face-mismatch trigger, or force lock. -/
def hbRequiresCaptcha (ipSame24 : String → String → Bool) (enrolled : Bool)
    (decrypted : Option (List ℚ)) (s : SessionState) (hb : HeartbeatSignals) : Bool :=
  should_trigger_facial_captcha (hbScore1 ipSame24 enrolled decrypted s hb)
  || (hbTriggers1 ipSame24 enrolled decrypted s hb).contains
      ("Live face does not match database")
  || hbForce s hb

/-- Whether this heartbeat sets `is_locked` in `update_data`: force
lock, or a LOCK_SESSION recommended action. -/
def hbLockFlag (ipSame24 : String → String → Bool) (enrolled : Bool)
    (decrypted : Option (List ℚ)) (s : SessionState) (hb : HeartbeatSignals) : Bool :=
  hbForce s hb || (hbAction1 ipSame24 enrolled decrypted s hb == "LOCK_SESSION")

/-- The session state persisted by a heartbeat that returned 200
(`update_data` merged into the session document). -/
def hbSessionAfter (ipSame24 : String → String → Bool) (enrolled : Bool)
    (decrypted : Option (List ℚ)) (s : SessionState) (hb : HeartbeatSignals) :
    SessionState :=
  { s with
    threat_score := hbScore1 ipSame24 enrolled decrypted s hb
    no_face_streak := hbStreakNF s hb
    multi_face_streak := hbStreakMF s hb
    is_locked :=
      if hbLockFlag ipSame24 enrolled decrypted s hb then true else s.is_locked
    requires_facial_captcha :=
      if hbLockFlag ipSame24 enrolled decrypted s hb
          || hbRequiresCaptcha ipSame24 enrolled decrypted s hb then true
      else s.requires_facial_captcha }

/-- The `ThreatScoreResponse` of a heartbeat that returned 200. -/
def hbResponse (ipSame24 : String → String → Bool) (enrolled : Bool)
    (decrypted : Option (List ℚ)) (s : SessionState) (hb : HeartbeatSignals) :
    ThreatResponse :=
  { score := hbScore1 ipSame24 enrolled decrypted s hb
    breakdown := (hbThreat0 ipSame24 enrolled decrypted s hb).breakdown
    triggers := hbTriggers1 ipSame24 enrolled decrypted s hb
    recommended_action := hbAction1 ipSame24 enrolled decrypted s hb
    requires_facial_captcha := hbRequiresCaptcha ipSame24 enrolled decrypted s hb }

/-- `process_heartbeat` (backend/app/api/monitoring.py): reject locked
sessions with 403; compute the engine result; update the streaks and
apply the force-lock override; broadcast; on FORCE_LOGOUT delete the
session and raise 401 (the pending `update_data` is discarded);
otherwise insert the behavioral audit row and persist `update_data`. -/
def process_heartbeat (ipSame24 : String → String → Bool) (enrolled : Bool)
    (decrypted : Option (List ℚ)) (s : SessionState) (hb : HeartbeatSignals) :
    PHResult :=
  if s.is_locked then { outcome := .error .locked, session := some s, trace := [] }
  else
    let score1 := hbScore1 ipSame24 enrolled decrypted s hb
    let bcast := Effect.broadcast score1
      (should_trigger_facial_captcha score1 || hbForce s hb)
    if hbAction1 ipSame24 enrolled decrypted s hb = "FORCE_LOGOUT" then
      { outcome := .error .terminated, session := none, trace := [bcast, .deleteSession] }
    else
      { outcome := .ok (hbResponse ipSame24 enrolled decrypted s hb)
        session := some (hbSessionAfter ipSame24 enrolled decrypted s hb)
        trace := [bcast, .insertBehavioral score1, .persistSession score1] }

/-- Response score of a heartbeat evaluation, when it returned 200. -/
def PHResult.respScore : PHResult → Option ℚ
  | { outcome := .ok r, .. } => some r.score
  | _ => none

/-- Full response of a heartbeat evaluation, when it returned 200. -/
def PHResult.resp : PHResult → Option ThreatResponse
  | { outcome := .ok r, .. } => some r
  | _ => none

/-- Threat score as persisted in the session store after the call. -/
def PHResult.sessionScore (r : PHResult) : Option ℚ :=
  r.session.map (fun s => s.threat_score)

/-- Session state after the call, provided the call returned 200. -/
def afterOk (r : PHResult) : Option SessionState :=
  match r.outcome with
  | .ok _ => r.session
  | .error _ => none

/-- Fold a list of heartbeats through `process_heartbeat`, stopping with
`none` when a call does not return 200. -/
def runHeartbeats (ipSame24 : String → String → Bool) (enrolled : Bool)
    (decrypted : Option (List ℚ)) :
    Option SessionState → List HeartbeatSignals → Option SessionState
  | s?, [] => s?
  | s?, hb :: rest =>
      runHeartbeats ipSame24 enrolled decrypted
        (s?.bind (fun s => afterOk (process_heartbeat ipSame24 enrolled decrypted s hb)))
        rest

/-- Format a rational with two decimals, as Python `.2f` formatting of
the (here exactly represented) float. -/
def formatQ2 (q : ℚ) : String :=
  let n := rhe (100 * q)
  let m := n.natAbs
  let frac := m % 100
  let fracStr := if frac < 10 then "0" ++ toString frac else toString frac
  (if n < 0 then "-" else "") ++ toString (m / 100) ++ "." ++ fracStr

/-- Result dict of `verify_liveness`
(backend/app/core/liveness_detector.py). -/
structure LivenessResult where
  verified : Bool
  confidence : ℚ
  reason : String
deriving DecidableEq, Repr

/-- `verify_liveness`: immediate failure when the challenge action was
not completed; otherwise reasons accumulate for slow timing, suspicious
fast timing and low confidence, and the check is verified exactly when
no reason accumulated.  The confidence reported after a completed
action is the raw liveness score.  The unused `challenge_type`
parameter of the source is dropped. -/
def verify_liveness (challenge_result : Bool) (timing_seconds liveness_score : ℚ) :
    LivenessResult :=
  if !challenge_result then
    { verified := false, confidence := 0, reason := "Challenge action not completed" }
  else
    let reasons : List String :=
      (if 8 < timing_seconds then ["Response too slow (timeout)"] else [])
      ++ (if timing_seconds < 1/2 then ["Response too fast (suspicious)"] else [])
      ++ (if liveness_score < 7/10 then
            ["Low liveness confidence: " ++ formatQ2 liveness_score] else [])
    if reasons.isEmpty then
      { verified := true, confidence := liveness_score,
        reason := "Liveness verified successfully" }
    else
      { verified := false, confidence := liveness_score,
        reason := String.intercalate "; " reasons }

/-- Attempt ledger entry written by `record_challenge_attempt` and read
by `validate_challenge_history` (the timestamp, used only by the
sliding-window failure count, is external time and is omitted). -/
structure AttemptRecord where
  user_id : String
  challenge_id : String
  challenge_type : String
  success : Bool
  liveness_verified : Bool
  face_matched : Bool
deriving DecidableEq, Repr

/-- Ledger lookup used by `validate_challenge_history`: is there an
attempt record for this user and challenge id? -/
def hasAttempt (history : List AttemptRecord) (uid cid : String) : Bool :=
  history.any (fun r => r.user_id == uid && r.challenge_id == cid)

/-- `validate_challenge_history`: a challenge is valid exactly when no
attempt record exists for it. -/
def validate_challenge_history (history : List AttemptRecord) (uid cid : String) : Bool :=
  !(hasAttempt history uid cid)

/-- `validate_embedding_quality` (backend/app/core/face_verification.py):
rejects an absent/empty vector, a vector that is not 128-dimensional,
and an all-zero vector.  The NaN/Inf check of the source is vacuous over
exact rationals. -/
def validate_embedding_quality (e : List ℚ) : Bool × String :=
  if e = [] then (false, "No embedding provided")
  else if e.length ≠ 128 then (false, "Embedding must be 128-dimensional")
  else if e.all (fun x => x == 0) then
    (false, "Embedding is all zeros - invalid face data")
  else (true, "Valid")

/-- Outcome of `verify_face_match`: either the decryption of the stored
vector raised (fail-safe branch), or the squared Euclidean distance was
computed. -/
inductive FaceMatchOutcome where
  | decryptFail
  | computed (dSq : ℚ)
deriving DecidableEq, Repr

/-- `verify_face_match` (backend/app/core/face_verification.py) with the
default threshold 0.55: `decrypted` is the outcome of
`decrypt_embedding` on the stored encrypted vector (`none` = raised). -/
def verify_face_match (live : List ℚ) (decrypted : Option (List ℚ)) : FaceMatchOutcome :=
  match decrypted with
  | none => .decryptFail
  | some stored => .computed (distSq live stored)

/-- First component of the source return triple: `is_match` is `False`
on a decryption failure, else `distance < 0.55` (compared in squared
form). -/
def FaceMatchOutcome.matched : FaceMatchOutcome → Bool
  | .decryptFail => false
  | .computed d => decide (d < faceThresholdSq)

/-- Third component of the source return triple. -/
def FaceMatchOutcome.verdictStr : FaceMatchOutcome → String
  | .decryptFail => "DECRYPT_FAIL"
  | .computed d => if d < faceThresholdSq then "MATCH" else "NO_MATCH"

/-- Whether the second component of the source return triple (the
similarity `max(0, min(1, 1 - distance))`) equals zero: it is the
literal 0.0 on a decryption failure, and for a computed distance it is
zero exactly when `1 - distance ≤ 0`, i.e. when the squared distance is
at least 1. -/
def FaceMatchOutcome.similarityIsZero : FaceMatchOutcome → Bool
  | .decryptFail => true
  | .computed d => decide (1 ≤ d)

/-- HTTP-error outcomes of `verify_challenge`: 400 for a replayed
challenge id, 429 for rate limiting, 400 for a rejected embedding. -/
inductive CapError where
  | replay
  | rateLimited
  | invalidEmbedding
deriving DecidableEq, Repr

/-- The `FacialCaptchaVerifyRequest` schema. -/
structure CaptchaRequest where
  challenge_id : String
  challenge_type : String
  challenge_result : Bool
  timing_seconds : ℚ
  liveness_score : ℚ
  face_embedding : List ℚ
deriving DecidableEq, Repr

/-- The `FacialCaptchaVerifyResponse` schema. -/
structure CaptchaResponse where
  success : Bool
  verdict : String
  face_matched : Bool
  liveness_verified : Bool
  message : String
  new_threat_score : ℚ
deriving DecidableEq, Repr

/-- Result of one challenge verification: the HTTP outcome, the session
state as left in the store, and the attempt ledger as left in the
store.  Error outcomes leave both stores untouched. -/
structure VCResult where
  outcome : Except CapError CaptchaResponse
  session : SessionState
  history : List AttemptRecord

/-- `verify_challenge` (backend/app/api/facial_captcha.py).  `enrolled`
is the truthiness of the stored `face_embedding_encrypted`; `decrypted`
is the outcome of decrypting it inside `verify_face_match`;
`frAvailable` models `is_face_recognition_available()`;
`recentFailures` models the sliding-window count returned by
`get_recent_failures` (a time-indexed store query). -/
def verify_challenge (uid : String) (enrolled : Bool)
    (decrypted : Option (List ℚ)) (frAvailable : Bool) (recentFailures : ℕ)
    (s : SessionState) (history : List AttemptRecord) (req : CaptchaRequest) :
    VCResult :=
  if hasAttempt history uid req.challenge_id then
    { outcome := .error .replay, session := s, history := history }
  else if MAX_CAPTCHA_ATTEMPTS ≤ recentFailures then
    { outcome := .error .rateLimited, session := s, history := history }
  else if !(validate_embedding_quality req.face_embedding).1 then
    { outcome := .error .invalidEmbedding, session := s, history := history }
  else
    let lv := verify_liveness req.challenge_result req.timing_seconds req.liveness_score
    let face_matched : Bool :=
      if !enrolled then true
      else if frAvailable then (verify_face_match req.face_embedding decrypted).matched
      else true
    if face_matched && lv.verified then
      let s' := { s with requires_facial_captcha := false, is_locked := false }
      { outcome := .ok
          { success := true, verdict := "PASS", face_matched := face_matched
            liveness_verified := lv.verified
            message := "Facial CAPTCHA verified successfully"
            new_threat_score := s'.threat_score }
        session := s'
        history := history ++
          [{ user_id := uid, challenge_id := req.challenge_id
             challenge_type := req.challenge_type, success := true
             liveness_verified := lv.verified, face_matched := face_matched }] }
    else if face_matched then
      let nt := min (s.threat_score + 45) 100
      let s' := { s with threat_score := nt }
      { outcome := .ok
          { success := false, verdict := "HIGH_RISK", face_matched := face_matched
            liveness_verified := lv.verified
            message := "Liveness verification failed: " ++ lv.reason
            new_threat_score := nt }
        session := s'
        history := history ++
          [{ user_id := uid, challenge_id := req.challenge_id
             challenge_type := req.challenge_type, success := false
             liveness_verified := lv.verified, face_matched := face_matched }] }
    else
      let nt := min (s.threat_score + 45) 100
      let shouldLock := decide (THREAT_LOCK_THRESHOLD ≤ nt)
      let s' := { s with threat_score := nt, is_locked := shouldLock }
      { outcome := .ok
          { success := false, verdict := "FAIL", face_matched := face_matched
            liveness_verified := lv.verified
            message := "Face verification failed"
            new_threat_score := nt }
        session := s'
        history := history ++
          [{ user_id := uid, challenge_id := req.challenge_id
             challenge_type := req.challenge_type, success := false
             liveness_verified := lv.verified, face_matched := face_matched }] }

/-- Verdict of a challenge verification, when it returned 200. -/
def VCResult.verdict : VCResult → Option String
  | { outcome := .ok r, .. } => some r.verdict
  | _ => none

/-- Full response of a challenge verification, when it returned 200. -/
def VCResult.resp : VCResult → Option CaptchaResponse
  | { outcome := .ok r, .. } => some r
  | _ => none

/-- Session lock flag as left in the store after a heartbeat. -/
def PHResult.lockedAfter (r : PHResult) : Option Bool :=
  r.session.map (fun s => s.is_locked)

/-- Captcha-required flag as left in the store after a heartbeat. -/
def PHResult.captchaAfter (r : PHResult) : Option Bool :=
  r.session.map (fun s => s.requires_facial_captcha)

/-- No-face streak counter as left in the store after a heartbeat. -/
def PHResult.streakAfter (r : PHResult) : Option ℕ :=
  r.session.map (fun s => s.no_face_streak)

/-- The ordering discipline asked of the heartbeat endpoint: every
broadcast in the trace comes after every persisted session update. -/
def broadcastOnlyAfterPersist (tr : List Effect) : Prop :=
  ∀ i j q b q', tr.get? i = some (.broadcast q b) →
    tr.get? j = some (.persistSession q') → j < i

/-- Oracle asserting that no two unequal IP strings share a /24 subnet;
concrete scenarios below always use equal addresses, for which the
source short-circuits before consulting the `ipaddress` library. -/
def ipOracleFalse : String → String → Bool := fun _ _ => false

/-- A healthy session bound to fingerprint "fp" and address "ip". -/
def sessN0 : SessionState :=
  { device_fingerprint := some "fp", ip_address := some "ip",
    created_age_hours := none, is_locked := false,
    requires_facial_captcha := false, threat_score := 0,
    no_face_streak := 0, multi_face_streak := 0 }

/-- `sessN0` after n consecutive no-face heartbeats, n = 1..4. -/
def sessNF1 : SessionState := { sessN0 with threat_score := 15, no_face_streak := 1 }

/-- `sessN0` after 2 consecutive no-face heartbeats. -/
def sessNF2 : SessionState := { sessN0 with threat_score := 15, no_face_streak := 2 }

/-- `sessN0` after 3 consecutive no-face heartbeats. -/
def sessNF3 : SessionState := { sessN0 with threat_score := 15, no_face_streak := 3 }

/-- `sessN0` after 4 consecutive no-face heartbeats. -/
def sessNF4 : SessionState := { sessN0 with threat_score := 15, no_face_streak := 4 }

/-- `sessN0` after the fifth consecutive no-face heartbeat: locked. -/
def sessNF5 : SessionState :=
  { sessN0 with
    is_locked := true
    requires_facial_captcha := true
    threat_score := 75
    no_face_streak := 5 }

/-- A locked session with a modest threat score, as left by some prior
escalation. -/
def sessLocked : SessionState :=
  { sessN0 with is_locked := true, requires_facial_captcha := true, threat_score := 10 }

/-- A heartbeat matching the session binding with every signal neutral
and the camera seeing exactly one face. -/
def hbNeutral : HeartbeatSignals :=
  { keystroke_deviation := 0, mouse_deviation := 0, face_present := some true,
    multiple_faces := false, camera_ready := true, camera_blocked := false,
    device_fingerprint := "fp", ip_address := "ip", facial_captcha_failed := 0,
    live_face_embedding := none, mouse_entropy := 1, mouse_velocity_variance := 1 }

/-- `hbNeutral` with the camera ready but no face in frame. -/
def hbNoFace : HeartbeatSignals := { hbNeutral with face_present := some false }

/-- `hbNeutral` reporting a negative CAPTCHA failure count, which the
request schema does not rule out. -/
def hbNegCaptcha : HeartbeatSignals := { hbNeutral with facial_captcha_failed := -1 }

/-- An all-zero rule breakdown. -/
def bkZero : Breakdown :=
  { device_mismatch := 0, ip_drift := 0, camera_anomalies := 0,
    behavioral_anomalies := 0, facial_captcha_failure := 0, ml_anomaly := 0,
    face_mismatch := 0, mouse_behavior := 0, session_age := 0 }

/-- Engine response to `hbNeutral` on `sessN0`. -/
def respNeutral : ThreatResponse :=
  { score := 0, breakdown := bkZero, triggers := [],
    recommended_action := "CONTINUE", requires_facial_captcha := false }

/-- Response to the fifth consecutive no-face heartbeat. -/
def respLock5 : ThreatResponse :=
  { score := 75, breakdown := { bkZero with camera_anomalies := 15 },
    triggers := ["No face detected"], recommended_action := "LOCK_SESSION",
    requires_facial_captcha := true }

/-- A valid 128-dimensional embedding: first coordinate 1, rest 0. -/
def vecOne : List ℚ := (1 : ℚ) :: List.replicate 127 0

/-- A valid embedding at Euclidean distance 0.6 from `vecOne`. -/
def vecFar : List ℚ := (8/5 : ℚ) :: List.replicate 127 0

/-- A challenge submission with a completed action, sane timing, good
confidence and the enrolled face. -/
def reqPass : CaptchaRequest :=
  { challenge_id := "ch-1", challenge_type := "SMILE", challenge_result := true,
    timing_seconds := 2, liveness_score := 9/10, face_embedding := vecOne }

/-- The same submission with a face 0.6 away from the enrolled one. -/
def reqFar : CaptchaRequest := { reqPass with challenge_id := "ch-2", face_embedding := vecFar }

/-- An attempt record already present in the ledger. -/
def recUsed : AttemptRecord :=
  { user_id := "u", challenge_id := "ch-1", challenge_type := "SMILE",
    success := false, liveness_verified := false, face_matched := false }

/-- `hbNeutral` carrying a live face embedding, sent while the stored
vector fails to decrypt. -/
def hbLive : HeartbeatSignals := { hbNeutral with live_face_embedding := some vecOne }

/-- Engine response to `hbNegCaptcha` on `sessN0`: the CAPTCHA rule
contributes -45. -/
def respNeg : ThreatResponse :=
  { score := -45, breakdown := { bkZero with facial_captcha_failure := -45 },
    triggers := [], recommended_action := "CONTINUE", requires_facial_captcha := false }

/-- `sessN0` after the negative-count heartbeat was persisted. -/
def sessNeg : SessionState := { sessN0 with threat_score := -45 }

/-- Session binding for the device-mismatch scenario. -/
def sdDevMismatch : SessionData :=
  { device_fingerprint := some "fp", ip_address := some "ip",
    created_age_hours := none, stored_face_embedding := none }

/-- Signals from a different device with everything else neutral. -/
def csDevMismatch : CurrentSignals :=
  { device_fingerprint := some "other-fp", ip_address := some "ip",
    keystroke_deviation := 0, mouse_deviation := 0, face_present := some true,
    multiple_faces := false, camera_ready := true, camera_blocked := false,
    facial_captcha_failed := 0, mouse_entropy := 1, mouse_velocity_variance := 1,
    live_face_embedding := none }

/-- An unlocked session carrying threat score 40. -/
def sessT40 : SessionState := { sessN0 with threat_score := 40 }

/-- Rounding half to even never goes below a lower integer bound. -/
theorem rhe_nonneg {y : ℚ} (hy : 0 ≤ y) : 0 ≤ rhe y := by
  have h0 : (0 : ℤ) ≤ ⌊y⌋ := Int.floor_nonneg.mpr hy
  unfold rhe
  split_ifs <;> omega

/-- Rounding half to even never exceeds an integer upper bound. -/
theorem rhe_le {y : ℚ} {m : ℤ} (h : y ≤ (m : ℚ)) : rhe y ≤ m := by
  have hfl : ⌊y⌋ ≤ m := by
    have := Int.floor_le_floor h
    simpa using this
  unfold rhe
  split_ifs with h1 h2 h3
  · exact hfl
  · rcases lt_or_eq_of_le hfl with h4 | h4
    · omega
    · exfalso
      have hy : y - (⌊y⌋ : ℚ) ≤ 0 := by
        rw [h4]
        linarith
      linarith
  · exact hfl
  · rcases lt_or_eq_of_le hfl with h4 | h4
    · omega
    · exfalso
      have hy : y - (⌊y⌋ : ℚ) ≤ 0 := by
        rw [h4]
        linarith
      have hge : (1 : ℚ)/2 ≤ y - (⌊y⌋ : ℚ) := le_of_not_lt h1
      linarith

/-- `round2` preserves nonnegativity. -/
theorem round2_nonneg {x : ℚ} (hx : 0 ≤ x) : 0 ≤ round2 x := by
  unfold round2
  have h : (0 : ℤ) ≤ rhe (100 * x) := rhe_nonneg (by linarith)
  have h' : (0 : ℚ) ≤ (rhe (100 * x) : ℚ) := by exact_mod_cast h
  linarith

/-- `round2` preserves the 100 upper bound. -/
theorem round2_le_100 {x : ℚ} (hx : x ≤ 100) : round2 x ≤ 100 := by
  unfold round2
  have h : rhe (100 * x) ≤ (10000 : ℤ) := by
    apply rhe_le
    push_cast
    linarith
  have h' : (rhe (100 * x) : ℚ) ≤ 10000 := by exact_mod_cast h
  linarith

/-- `round2` is the identity on integers. -/
theorem round2_intCast (n : ℤ) : round2 ((n : ℚ)) = n := by
  unfold round2 rhe
  have h1 : (100 : ℚ) * (n : ℚ) = ((100 * n : ℤ) : ℚ) := by push_cast; ring
  rw [h1, Int.floor_intCast]
  norm_num

/-- `round2` is the identity on natural numerals. -/
theorem round2_natCast (n : ℕ) : round2 ((n : ℚ)) = n := by
  have := round2_intCast (n : ℤ)
  push_cast at this
  exact_mod_cast this

/-- The device-mismatch rule never yields a negative sub-score. -/
theorem check_device_mismatch_nonneg (a b : Option String) :
    0 ≤ check_device_mismatch a b := by
  unfold check_device_mismatch
  rcases a with _ | s <;> rcases b with _ | c <;> simp <;> split_ifs <;> norm_num

/-- The IP-drift rule never yields a negative sub-score. -/
theorem check_ip_drift_nonneg (f : String → String → Bool) (a b : Option String) :
    0 ≤ check_ip_drift f a b := by
  unfold check_ip_drift
  rcases a with _ | s <;> rcases b with _ | c <;> simp <;> split_ifs <;> norm_num

/-- The camera-anomaly rule never yields a negative sub-score. -/
theorem check_camera_anomalies_nonneg (cs : CurrentSignals) :
    0 ≤ check_camera_anomalies cs := by
  unfold check_camera_anomalies
  have h35 : (0:ℚ) ≤ 35 := by norm_num
  refine le_min ?_ h35
  split_ifs <;> norm_num

/-- The behavioral-anomaly rule never yields a negative sub-score. -/
theorem check_behavioral_anomalies_nonneg (kd md : ℚ) :
    0 ≤ check_behavioral_anomalies kd md := by
  unfold check_behavioral_anomalies
  refine le_min ?_ (by norm_num)
  split_ifs <;> norm_num

/-- The session-age rule never yields a negative sub-score. -/
theorem check_session_age_nonneg (age : Option ℚ) : 0 ≤ check_session_age age := by
  unfold check_session_age
  rcases age with _ | h <;> simp <;> split_ifs <;> norm_num

/-- The face-mismatch rule never yields a negative sub-score. -/
theorem check_face_mismatch_nonneg (l s : Option (List ℚ)) :
    0 ≤ check_face_mismatch l s := by
  unfold check_face_mismatch
  rcases l with _ | a <;> rcases s with _ | b <;> simp <;> split_ifs <;> norm_num

/-- The mouse-behavior rule never yields a negative sub-score. -/
theorem check_mouse_behavior_nonneg (ent vv : ℚ) : 0 ≤ check_mouse_behavior ent vv := by
  unfold check_mouse_behavior
  refine le_min ?_ (by norm_num)
  split_ifs <;> norm_num

/-- With a nonnegative CAPTCHA failure count and a nonnegative ML score
every rule contribution is nonnegative, so the pre-cap total is too. -/
theorem engineTotal_nonneg (f : String → String → Bool) (sd : SessionData)
    (cs : CurrentSignals) (ml : ℚ) (hcf : 0 ≤ cs.facial_captcha_failed)
    (hml : 0 ≤ ml) : 0 ≤ engineTotal f sd cs ml := by
  unfold engineTotal
  have h1 := check_device_mismatch_nonneg sd.device_fingerprint cs.device_fingerprint
  have h2 := check_ip_drift_nonneg f sd.ip_address cs.ip_address
  have h3 := check_camera_anomalies_nonneg cs
  have h4 := check_behavioral_anomalies_nonneg cs.keystroke_deviation cs.mouse_deviation
  have h5 : (0 : ℚ) ≤ (cs.facial_captcha_failed : ℚ) * 45 := by
    have : (0 : ℚ) ≤ (cs.facial_captcha_failed : ℚ) := by exact_mod_cast hcf
    linarith
  have h6 : (0 : ℚ) ≤ ml * 20 := by linarith
  have h7 := check_face_mismatch_nonneg cs.live_face_embedding sd.stored_face_embedding
  have h8 := check_mouse_behavior_nonneg cs.mouse_entropy cs.mouse_velocity_variance
  have h9 := check_session_age_nonneg sd.created_age_hours
  linarith

/-- The capped score lies in [0, 100] whenever the CAPTCHA failure
count and the ML score are nonnegative. -/
theorem cappedScore_bounds (f : String → String → Bool) (sd : SessionData)
    (cs : CurrentSignals) (ml : ℚ) (hcf : 0 ≤ cs.facial_captcha_failed)
    (hml : 0 ≤ ml) :
    0 ≤ cappedScore f sd cs ml ∧ cappedScore f sd cs ml ≤ 100 := by
  unfold cappedScore
  constructor
  · exact le_min (engineTotal_nonneg f sd cs ml hcf hml) (by norm_num)
  · exact min_le_right _ _

/-- The rounded engine score lies in [0, 100] whenever the CAPTCHA
failure count and the ML score are nonnegative. -/
theorem calc_score_bounds (f : String → String → Bool) (sd : SessionData)
    (cs : CurrentSignals) (ml : ℚ) (hcf : 0 ≤ cs.facial_captcha_failed)
    (hml : 0 ≤ ml) :
    0 ≤ (calculate_threat_score f sd cs ml).score ∧
      (calculate_threat_score f sd cs ml).score ≤ 100 := by
  obtain ⟨hlo, hhi⟩ := cappedScore_bounds f sd cs ml hcf hml
  unfold calculate_threat_score
  exact ⟨round2_nonneg hlo, round2_le_100 hhi⟩

/-- Both fingerprints present, nonempty and unequal: the device rule
contributes exactly 40. -/
theorem check_device_mismatch_forty (a b : String) (ha : a ≠ "") (hb : b ≠ "")
    (hne : a ≠ b) : check_device_mismatch (some a) (some b) = 40 := by
  simp [check_device_mismatch, ha, hb, hne]

/-- Equal stored and current address: the IP rule contributes 0. -/
theorem check_ip_drift_self (f : String → String → Bool) (o : Option String) :
    check_ip_drift f o o = 0 := by
  cases o with
  | none => rfl
  | some s => simp [check_ip_drift]

/-- A normal camera frame contributes 0. -/
theorem check_camera_anomalies_zero (cs : CurrentSignals)
    (h1 : cs.multiple_faces = false) (h2 : cs.camera_blocked = false)
    (h3 : cs.face_present ≠ some false) : check_camera_anomalies cs = 0 := by
  simp [check_camera_anomalies, h1, h2, h3]

/-- Deviations within two standard deviations contribute 0. -/
theorem check_behavioral_anomalies_zero (kd md : ℚ) (hkd : kd ≤ 2) (hmd : md ≤ 2) :
    check_behavioral_anomalies kd md = 0 := by
  simp [check_behavioral_anomalies, not_lt.mpr hkd, not_lt.mpr hmd]

/-- Healthy mouse entropy and velocity variance contribute 0. -/
theorem check_mouse_behavior_zero (ent vv : ℚ) (hent : 1/2 ≤ ent) (hvv : 1/5 ≤ vv) :
    check_mouse_behavior ent vv = 0 := by
  have h3 : ¬(ent < 3/10) := not_lt.mpr (by linarith)
  have h5 : ¬(ent < 1/2) := not_lt.mpr hent
  have hv : ¬(vv < 1/5) := not_lt.mpr hvv
  unfold check_mouse_behavior
  rw [if_neg h3, if_neg h5, if_neg hv]
  norm_num

/-- A session at most 12 hours old contributes 0 age score. -/
theorem check_session_age_young (a : ℚ) (h : a ≤ 12) :
    check_session_age (some a) = 0 := by
  have h24 : ¬(24 < a) := not_lt.mpr (by linarith)
  have h12 : ¬(12 < a) := not_lt.mpr h
  simp [check_session_age, h24, h12]

/-- Without a stored embedding the face-mismatch rule contributes 0. -/
theorem check_face_mismatch_none_right (l : Option (List ℚ)) :
    check_face_mismatch l none = 0 := by
  cases l <;> rfl

/-- The reported heartbeat score, force-lock floor included, stays in
[0, 100] whenever the CAPTCHA failure count is nonnegative. -/
theorem hbScore1_bounds (f : String → String → Bool) (e : Bool) (d : Option (List ℚ))
    (s : SessionState) (hb : HeartbeatSignals) (hcf : 0 ≤ hb.facial_captcha_failed) :
    0 ≤ hbScore1 f e d s hb ∧ hbScore1 f e d s hb ≤ 100 := by
  have hbounds := calc_score_bounds f (hbSessionData e d s) (hbCurrentSignals hb) 0
    (by simpa [hbCurrentSignals] using hcf) le_rfl
  unfold hbScore1 hbThreat0
  split_ifs
  · exact ⟨le_max_of_le_left hbounds.1,
      max_le hbounds.2 (by norm_num [THREAT_LOCK_THRESHOLD])⟩
  · exact hbounds

/-- An uncompleted challenge action fails liveness immediately with
zero confidence. -/
theorem vl_false (t sc : ℚ) : verify_liveness false t sc =
    { verified := false, confidence := 0, reason := "Challenge action not completed" } := by
  simp [verify_liveness]

/-- Liveness is verified exactly when the action completed, the timing
lies in [0.5, 8] seconds and the confidence is at least 0.7. -/
theorem vl_verified_iff (r : Bool) (t sc : ℚ) :
    (verify_liveness r t sc).verified = true ↔
      (r = true ∧ t ≤ 8 ∧ 1/2 ≤ t ∧ 7/10 ≤ sc) := by
  cases r
  · simp [verify_liveness]
  · simp only [verify_liveness]
    split_ifs with h1 h2 h3 h4 h5 h6 h7 <;>
      simp_all [List.isEmpty_iff, not_lt] <;> linarith

/-- After a completed action the reported confidence is the raw
liveness score. -/
theorem vl_conf (t sc : ℚ) :
    (verify_liveness true t sc).confidence = sc := by
  simp only [verify_liveness]
  split_ifs <;> simp_all

/-- Squared distance unfolds one coordinate at a time. -/
theorem distSq_cons (a b : ℚ) (u v : List ℚ) :
    distSq (a :: u) (b :: v) = (a - b) * (a - b) + distSq u v := by
  simp [distSq]

/-- A vector is at squared distance 0 from itself. -/
theorem distSq_self (v : List ℚ) : distSq v v = 0 := by
  induction v with
  | nil => rfl
  | cons a u ih => rw [distSq_cons, ih]; ring

/-- The fixture vectors lie at squared distance 9/25 (distance 0.6). -/
theorem distSq_far : distSq vecFar vecOne = 9/25 := by
  unfold vecFar vecOne
  rw [distSq_cons, distSq_self]
  norm_num

/-- When every gate passes and the face does not match, the FAIL branch
of `verify_challenge` runs: penalty 45 capped at 100, the lock flag
written unconditionally from the new total, one attempt appended. -/
theorem vc_fail_eq (uid : String) (e : Bool) (dec : Option (List ℚ)) (fr : Bool)
    (rf : ℕ) (s : SessionState) (hist : List AttemptRecord) (req : CaptchaRequest)
    (hrep : hasAttempt hist uid req.challenge_id = false)
    (hrf : rf < MAX_CAPTCHA_ATTEMPTS)
    (hemb : (validate_embedding_quality req.face_embedding).1 = true)
    (hfm : (if !e then true
            else if fr then (verify_face_match req.face_embedding dec).matched
            else true) = false) :
    verify_challenge uid e dec fr rf s hist req =
      { outcome := .ok
          { success := false, verdict := "FAIL", face_matched := false
            liveness_verified :=
              (verify_liveness req.challenge_result req.timing_seconds req.liveness_score).verified
            message := "Face verification failed"
            new_threat_score := min (s.threat_score + 45) 100 }
        session :=
          { s with
            threat_score := min (s.threat_score + 45) 100
            is_locked := decide (THREAT_LOCK_THRESHOLD ≤ min (s.threat_score + 45) 100) }
        history := hist ++
          [{ user_id := uid, challenge_id := req.challenge_id
             challenge_type := req.challenge_type, success := false
             liveness_verified :=
               (verify_liveness req.challenge_result req.timing_seconds req.liveness_score).verified
             face_matched := false }] } := by
  have hnle : ¬(MAX_CAPTCHA_ATTEMPTS ≤ rf) := by omega
  simp only [verify_challenge, hrep, hemb, hfm, if_neg hnle]
  simp

/-- When every gate passes, the face matches and liveness is verified,
the PASS branch of `verify_challenge` runs: both control flags cleared,
threat score untouched, one attempt appended. -/
theorem vc_pass_eq (uid : String) (e : Bool) (dec : Option (List ℚ)) (fr : Bool)
    (rf : ℕ) (s : SessionState) (hist : List AttemptRecord) (req : CaptchaRequest)
    (hrep : hasAttempt hist uid req.challenge_id = false)
    (hrf : rf < MAX_CAPTCHA_ATTEMPTS)
    (hemb : (validate_embedding_quality req.face_embedding).1 = true)
    (hfm : (if !e then true
            else if fr then (verify_face_match req.face_embedding dec).matched
            else true) = true)
    (hlv : (verify_liveness req.challenge_result req.timing_seconds req.liveness_score).verified = true) :
    verify_challenge uid e dec fr rf s hist req =
      { outcome := .ok
          { success := true, verdict := "PASS", face_matched := true
            liveness_verified := true
            message := "Facial CAPTCHA verified successfully"
            new_threat_score := s.threat_score }
        session := { s with requires_facial_captcha := false, is_locked := false }
        history := hist ++
          [{ user_id := uid, challenge_id := req.challenge_id
             challenge_type := req.challenge_type, success := true
             liveness_verified := true, face_matched := true }] } := by
  have hnle : ¬(MAX_CAPTCHA_ATTEMPTS ≤ rf) := by omega
  simp only [verify_challenge, hrep, hemb, hfm, hlv, if_neg hnle]
  simp

/-- A fifth consecutive no-face frame makes the force-lock condition
fire and puts its reason on the list. -/
theorem hbForce_of_streak (s : SessionState) (hb : HeartbeatSignals)
    (hcam : hb.camera_ready = true) (hfp : hb.face_present = some false)
    (hstreak : 4 ≤ s.no_face_streak) :
    hbForce s hb = true ∧ "No face detected" ∈ hbForceReasons s hb := by
  have hnf : hbStreakNF s hb = s.no_face_streak + 1 := by
    simp [hbStreakNF, hcam, hfp]
  have h5 : 5 ≤ hbStreakNF s hb := by omega
  constructor
  · simp [hbForce, hbForceReasons, hcam, h5]
  · simp [hbForceReasons, hcam, h5]

/-- Every force-lock reason ends up in the response trigger list,
whether or not the engine had already recorded it. -/
theorem mem_hbTriggers1 (f : String → String → Bool) (e : Bool) (d : Option (List ℚ))
    (s : SessionState) (hb : HeartbeatSignals) (r : String)
    (hmem : r ∈ hbForceReasons s hb) :
    r ∈ hbTriggers1 f e d s hb := by
  by_cases hmemT : r ∈ (hbThreat0 f e d s hb).triggers
  · simp [hbTriggers1, hmemT]
  · simp [hbTriggers1, List.mem_append, List.mem_filter, hmemT, hmem]

/-- A heartbeat on an unlocked session whose no-face streak reaches 5
locks the session: LOCK_SESSION action, score floored at the lock
threshold, the no-face trigger present, both control flags persisted
true — regardless of every other signal. -/
theorem ph_fifth_force (f : String → String → Bool) (e : Bool) (d : Option (List ℚ))
    (s : SessionState) (hb : HeartbeatSignals)
    (hlock : s.is_locked = false) (hcam : hb.camera_ready = true)
    (hfp : hb.face_present = some false) (hstreak : 4 ≤ s.no_face_streak) :
    ∃ resp, (process_heartbeat f e d s hb).resp = some resp ∧
      resp.recommended_action = "LOCK_SESSION" ∧
      THREAT_LOCK_THRESHOLD ≤ resp.score ∧
      "No face detected" ∈ resp.triggers ∧
      (process_heartbeat f e d s hb).lockedAfter = some true ∧
      (process_heartbeat f e d s hb).captchaAfter = some true := by
  obtain ⟨hforce, hmem⟩ := hbForce_of_streak s hb hcam hfp hstreak
  have haction : hbAction1 f e d s hb = "LOCK_SESSION" := by
    simp [hbAction1, hforce]
  have hne : ¬(hbAction1 f e d s hb = "FORCE_LOGOUT") := by
    rw [haction]; decide
  refine ⟨hbResponse f e d s hb, ?_, ?_, ?_, ?_, ?_, ?_⟩
  · simp [process_heartbeat, PHResult.resp, hlock, hne]
  · simp [hbResponse, haction]
  · simp only [hbResponse, hbScore1, hforce, if_true]
    exact le_max_right _ _
  · exact mem_hbTriggers1 f e d s hb _ hmem
  · simp [process_heartbeat, PHResult.lockedAfter, hlock, hne, hbSessionAfter,
      hbLockFlag, hforce]
  · simp [process_heartbeat, PHResult.captchaAfter, hlock, hne, hbSessionAfter,
      hbLockFlag, hforce]

/-- Any completed heartbeat without the (camera ready, face absent)
condition persists a no-face streak of 0. -/
theorem ph_streak_reset (f : String → String → Bool) (e : Bool) (d : Option (List ℚ))
    (s : SessionState) (hb : HeartbeatSignals) (s' : SessionState)
    (hcond : ¬(hb.camera_ready = true ∧ hb.face_present = some false))
    (hs' : afterOk (process_heartbeat f e d s hb) = some s') :
    s'.no_face_streak = 0 := by
  simp only [process_heartbeat, afterOk] at hs'
  split_ifs at hs' with h1 h2
  simp only [Option.some.injEq] at hs'
  subst hs'
  simp only [hbSessionAfter, hbStreakNF]
  rcases Bool.eq_false_or_eq_true hb.camera_ready with hc | hc
  · have hnfp : hb.face_present ≠ some false := by
      intro hfp
      exact hcond ⟨hc, hfp⟩
    simp [hc, hnfp]
  · simp [hc]

/-- A heartbeat that returned 200 and decrypted no stored vector gives
the face-mismatch rule a zero contribution. -/
theorem ph_decrypt_fail_rule_zero (f : String → String → Bool)
    (s : SessionState) (hb : HeartbeatSignals) (resp : ThreatResponse)
    (hok : (process_heartbeat f true none s hb).outcome = .ok resp) :
    resp.breakdown.face_mismatch = 0 := by
  simp only [process_heartbeat] at hok
  split_ifs at hok with h1 h2
  simp only [Except.ok.injEq] at hok
  subst hok
  simp [hbResponse, hbThreat0, calculate_threat_score, hbSessionData,
    check_face_mismatch_none_right]

/-- A fully neutral heartbeat scores 0 and leaves the session as it
was. -/
theorem ph_eval_neutral :
    process_heartbeat ipOracleFalse false none sessN0 hbNeutral =
      { outcome := .ok respNeutral, session := some sessN0,
        trace := [.broadcast 0 false, .insertBehavioral 0, .persistSession 0] } := by
  norm_num [process_heartbeat, hbThreat0, hbForce, hbForceReasons, hbStreakNF, hbStreakMF,
    hbTriggers1, hbScore1, hbAction1, hbRequiresCaptcha, hbLockFlag, hbSessionAfter,
    hbResponse, hbSessionData, hbCurrentSignals, calculate_threat_score, engineTriggers,
    cappedScore, engineTotal, check_device_mismatch, check_ip_drift, check_camera_anomalies,
    check_behavioral_anomalies, check_session_age, check_face_mismatch, check_mouse_behavior,
    get_recommended_action, should_trigger_facial_captcha, round2, rhe,
    THREAT_LOCK_THRESHOLD, THREAT_LOGOUT_THRESHOLD, sessN0, hbNeutral, ipOracleFalse,
    respNeutral, bkZero]
  rfl

/-- A heartbeat whose only nonneutral signal is a CAPTCHA failure count
of -1 is accepted and scores -45. -/
theorem ph_eval_negCaptcha :
    process_heartbeat ipOracleFalse false none sessN0 hbNegCaptcha =
      { outcome := .ok respNeg, session := some sessNeg,
        trace := [.broadcast (-45) false, .insertBehavioral (-45), .persistSession (-45)] } := by
  norm_num [process_heartbeat, hbThreat0, hbForce, hbForceReasons, hbStreakNF, hbStreakMF,
    hbTriggers1, hbScore1, hbAction1, hbRequiresCaptcha, hbLockFlag, hbSessionAfter,
    hbResponse, hbSessionData, hbCurrentSignals, calculate_threat_score, engineTriggers,
    cappedScore, engineTotal, check_device_mismatch, check_ip_drift, check_camera_anomalies,
    check_behavioral_anomalies, check_session_age, check_face_mismatch, check_mouse_behavior,
    get_recommended_action, should_trigger_facial_captcha, round2, rhe,
    THREAT_LOCK_THRESHOLD, THREAT_LOGOUT_THRESHOLD, sessN0, sessNeg, hbNeutral, hbNegCaptcha,
    ipOracleFalse, respNeg, bkZero]
  rfl

/-- A neutral heartbeat carrying a live embedding, while the stored
vector fails to decrypt, scores 0 with no face-mismatch trigger. -/
theorem ph_eval_live :
    process_heartbeat ipOracleFalse true none sessN0 hbLive =
      { outcome := .ok respNeutral, session := some sessN0,
        trace := [.broadcast 0 false, .insertBehavioral 0, .persistSession 0] } := by
  norm_num [process_heartbeat, hbThreat0, hbForce, hbForceReasons, hbStreakNF, hbStreakMF,
    hbTriggers1, hbScore1, hbAction1, hbRequiresCaptcha, hbLockFlag, hbSessionAfter,
    hbResponse, hbSessionData, hbCurrentSignals, calculate_threat_score, engineTriggers,
    cappedScore, engineTotal, check_device_mismatch, check_ip_drift, check_camera_anomalies,
    check_behavioral_anomalies, check_session_age, check_face_mismatch, check_mouse_behavior,
    get_recommended_action, should_trigger_facial_captcha, round2, rhe,
    THREAT_LOCK_THRESHOLD, THREAT_LOGOUT_THRESHOLD, sessN0, hbNeutral, hbLive,
    ipOracleFalse, respNeutral, bkZero]
  rfl

/-- First no-face heartbeat: streak 1, score 15, no lock. -/
theorem ph_step_nf0 :
    afterOk (process_heartbeat ipOracleFalse false none sessN0 hbNoFace) = some sessNF1 := by
  norm_num [afterOk, process_heartbeat, hbThreat0, hbForce, hbForceReasons, hbStreakNF,
    hbStreakMF, hbTriggers1, hbScore1, hbAction1, hbRequiresCaptcha, hbLockFlag,
    hbSessionAfter, hbResponse, hbSessionData, hbCurrentSignals, calculate_threat_score,
    engineTriggers, cappedScore, engineTotal, check_device_mismatch, check_ip_drift,
    check_camera_anomalies, check_behavioral_anomalies, check_session_age,
    check_face_mismatch, check_mouse_behavior, get_recommended_action,
    should_trigger_facial_captcha, round2, rhe, THREAT_LOCK_THRESHOLD,
    THREAT_LOGOUT_THRESHOLD, sessN0, sessNF1, hbNeutral, hbNoFace, ipOracleFalse]
  rfl

/-- Second no-face heartbeat: streak 2, still no lock. -/
theorem ph_step_nf1 :
    afterOk (process_heartbeat ipOracleFalse false none sessNF1 hbNoFace) = some sessNF2 := by
  norm_num [afterOk, process_heartbeat, hbThreat0, hbForce, hbForceReasons, hbStreakNF,
    hbStreakMF, hbTriggers1, hbScore1, hbAction1, hbRequiresCaptcha, hbLockFlag,
    hbSessionAfter, hbResponse, hbSessionData, hbCurrentSignals, calculate_threat_score,
    engineTriggers, cappedScore, engineTotal, check_device_mismatch, check_ip_drift,
    check_camera_anomalies, check_behavioral_anomalies, check_session_age,
    check_face_mismatch, check_mouse_behavior, get_recommended_action,
    should_trigger_facial_captcha, round2, rhe, THREAT_LOCK_THRESHOLD,
    THREAT_LOGOUT_THRESHOLD, sessN0, sessNF1, sessNF2, hbNeutral, hbNoFace, ipOracleFalse]
  rfl

/-- Third no-face heartbeat: streak 3, still no lock. -/
theorem ph_step_nf2 :
    afterOk (process_heartbeat ipOracleFalse false none sessNF2 hbNoFace) = some sessNF3 := by
  norm_num [afterOk, process_heartbeat, hbThreat0, hbForce, hbForceReasons, hbStreakNF,
    hbStreakMF, hbTriggers1, hbScore1, hbAction1, hbRequiresCaptcha, hbLockFlag,
    hbSessionAfter, hbResponse, hbSessionData, hbCurrentSignals, calculate_threat_score,
    engineTriggers, cappedScore, engineTotal, check_device_mismatch, check_ip_drift,
    check_camera_anomalies, check_behavioral_anomalies, check_session_age,
    check_face_mismatch, check_mouse_behavior, get_recommended_action,
    should_trigger_facial_captcha, round2, rhe, THREAT_LOCK_THRESHOLD,
    THREAT_LOGOUT_THRESHOLD, sessN0, sessNF2, sessNF3, hbNeutral, hbNoFace, ipOracleFalse]
  rfl

/-- Fourth no-face heartbeat: streak 4, still no lock. -/
theorem ph_step_nf3 :
    afterOk (process_heartbeat ipOracleFalse false none sessNF3 hbNoFace) = some sessNF4 := by
  norm_num [afterOk, process_heartbeat, hbThreat0, hbForce, hbForceReasons, hbStreakNF,
    hbStreakMF, hbTriggers1, hbScore1, hbAction1, hbRequiresCaptcha, hbLockFlag,
    hbSessionAfter, hbResponse, hbSessionData, hbCurrentSignals, calculate_threat_score,
    engineTriggers, cappedScore, engineTotal, check_device_mismatch, check_ip_drift,
    check_camera_anomalies, check_behavioral_anomalies, check_session_age,
    check_face_mismatch, check_mouse_behavior, get_recommended_action,
    should_trigger_facial_captcha, round2, rhe, THREAT_LOCK_THRESHOLD,
    THREAT_LOGOUT_THRESHOLD, sessN0, sessNF3, sessNF4, hbNeutral, hbNoFace, ipOracleFalse]
  rfl

/-- The fifth consecutive no-face heartbeat forces the lock: score
floored at 75, LOCK_SESSION, both flags set, even though the raw
weighted score is only 15. -/
theorem ph_eval_nf4 :
    process_heartbeat ipOracleFalse false none sessNF4 hbNoFace =
      { outcome := .ok respLock5, session := some sessNF5,
        trace := [.broadcast 75 true, .insertBehavioral 75, .persistSession 75] } := by
  norm_num [process_heartbeat, hbThreat0, hbForce, hbForceReasons, hbStreakNF, hbStreakMF,
    hbTriggers1, hbScore1, hbAction1, hbRequiresCaptcha, hbLockFlag, hbSessionAfter,
    hbResponse, hbSessionData, hbCurrentSignals, calculate_threat_score, engineTriggers,
    cappedScore, engineTotal, check_device_mismatch, check_ip_drift, check_camera_anomalies,
    check_behavioral_anomalies, check_session_age, check_face_mismatch, check_mouse_behavior,
    get_recommended_action, should_trigger_facial_captcha, round2, rhe,
    THREAT_LOCK_THRESHOLD, THREAT_LOGOUT_THRESHOLD, sessN0, sessNF4, sessNF5, hbNeutral,
    hbNoFace, ipOracleFalse, respLock5, bkZero]
  decide

/-- Session view of the fifth no-face heartbeat. -/
theorem ph_step_nf4 :
    afterOk (process_heartbeat ipOracleFalse false none sessNF4 hbNoFace) = some sessNF5 := by
  rw [ph_eval_nf4]
  rfl

/-- A face-present heartbeat after four no-face frames resets the
session to its neutral state (streak 0, no lock). -/
theorem ph_step_reset :
    afterOk (process_heartbeat ipOracleFalse false none sessNF4 hbNeutral) = some sessN0 := by
  norm_num [afterOk, process_heartbeat, hbThreat0, hbForce, hbForceReasons, hbStreakNF,
    hbStreakMF, hbTriggers1, hbScore1, hbAction1, hbRequiresCaptcha, hbLockFlag,
    hbSessionAfter, hbResponse, hbSessionData, hbCurrentSignals, calculate_threat_score,
    engineTriggers, cappedScore, engineTotal, check_device_mismatch, check_ip_drift,
    check_camera_anomalies, check_behavioral_anomalies, check_session_age,
    check_face_mismatch, check_mouse_behavior, get_recommended_action,
    should_trigger_facial_captcha, round2, rhe, THREAT_LOCK_THRESHOLD,
    THREAT_LOGOUT_THRESHOLD, sessN0, sessNF4, hbNeutral, ipOracleFalse]
  rfl

/-- Five consecutive no-face heartbeats from the neutral session leave
it locked with streak 5 and score 75. -/
theorem run5_lock :
    runHeartbeats ipOracleFalse false none (some sessN0) (List.replicate 5 hbNoFace) =
      some sessNF5 := by
  simp only [List.replicate, runHeartbeats, Option.bind,
    ph_step_nf0, ph_step_nf1, ph_step_nf2, ph_step_nf3, ph_step_nf4]

/-- Four no-face heartbeats, one face-present heartbeat, then four more
no-face heartbeats never lock: the streak was reset in between. -/
theorem run_mixed :
    runHeartbeats ipOracleFalse false none (some sessN0)
      (List.replicate 4 hbNoFace ++ [hbNeutral] ++ List.replicate 4 hbNoFace) =
      some sessNF4 := by
  simp only [List.replicate, List.append_assoc, List.cons_append, List.nil_append,
    runHeartbeats, Option.bind,
    ph_step_nf0, ph_step_nf1, ph_step_nf2, ph_step_nf3, ph_step_reset]

/-- C1 (amended): for every heartbeat evaluation that returns 200 and
whose signals carry a nonnegative CAPTCHA failure count, every rule
sub-score is nonnegative and the score returned and persisted satisfies
0 ≤ score ≤ 100, the force-lock floor included.  (The count hypothesis
is needed: the request schema admits negative counts, under which the
claimed invariant fails — see the counterexample.) -/
theorem C1_heartbeat_score_in_range (f : String → String → Bool) (e : Bool)
    (d : Option (List ℚ)) (s : SessionState) (hb : HeartbeatSignals)
    (hcf : 0 ≤ hb.facial_captcha_failed) (resp : ThreatResponse)
    (hok : (process_heartbeat f e d s hb).outcome = .ok resp) :
    (0 ≤ resp.score ∧ resp.score ≤ 100) ∧
      (process_heartbeat f e d s hb).sessionScore = some resp.score ∧
      0 ≤ resp.breakdown.device_mismatch ∧
      0 ≤ resp.breakdown.ip_drift ∧
      0 ≤ resp.breakdown.camera_anomalies ∧
      0 ≤ resp.breakdown.behavioral_anomalies ∧
      0 ≤ resp.breakdown.facial_captcha_failure ∧
      0 ≤ resp.breakdown.ml_anomaly ∧
      0 ≤ resp.breakdown.face_mismatch ∧
      0 ≤ resp.breakdown.mouse_behavior ∧
      0 ≤ resp.breakdown.session_age := by
  simp only [process_heartbeat, PHResult.sessionScore] at hok ⊢
  split_ifs at hok ⊢ with h1 h2
  simp only [Except.ok.injEq] at hok
  subst hok
  refine ⟨hbScore1_bounds f e d s hb hcf, ?_, ?_, ?_, ?_, ?_, ?_, ?_, ?_, ?_, ?_⟩
  · simp [hbSessionAfter, hbResponse]
  all_goals simp only [hbResponse, hbThreat0, calculate_threat_score]
  · exact check_device_mismatch_nonneg _ _
  · exact check_ip_drift_nonneg _ _ _
  · exact check_camera_anomalies_nonneg _
  · exact check_behavioral_anomalies_nonneg _ _
  · have hq : (0 : ℚ) ≤ ((hbCurrentSignals hb).facial_captcha_failed : ℚ) := by
      simp only [hbCurrentSignals]
      exact_mod_cast hcf
    linarith
  · norm_num
  · exact check_face_mismatch_nonneg _ _
  · exact check_mouse_behavior_nonneg _ _
  · exact check_session_age_nonneg _

/-- C1 witness: the nonnegative-count hypothesis and the conclusion at
the neutral heartbeat, whose score is 0. -/
theorem C1_heartbeat_score_in_range_witness :
    (0 ≤ hbNeutral.facial_captcha_failed) ∧
    ((process_heartbeat ipOracleFalse false none sessN0 hbNeutral).outcome = .ok respNeutral) ∧
    ((0 ≤ respNeutral.score ∧ respNeutral.score ≤ 100) ∧
      (process_heartbeat ipOracleFalse false none sessN0 hbNeutral).sessionScore =
        some respNeutral.score ∧
      0 ≤ respNeutral.breakdown.device_mismatch ∧
      0 ≤ respNeutral.breakdown.ip_drift ∧
      0 ≤ respNeutral.breakdown.camera_anomalies ∧
      0 ≤ respNeutral.breakdown.behavioral_anomalies ∧
      0 ≤ respNeutral.breakdown.facial_captcha_failure ∧
      0 ≤ respNeutral.breakdown.ml_anomaly ∧
      0 ≤ respNeutral.breakdown.face_mismatch ∧
      0 ≤ respNeutral.breakdown.mouse_behavior ∧
      0 ≤ respNeutral.breakdown.session_age) :=
  ⟨by decide, by rw [ph_eval_neutral],
    C1_heartbeat_score_in_range ipOracleFalse false none sessN0 hbNeutral
      (by decide) respNeutral (by rw [ph_eval_neutral])⟩

/-- C1 counterexample: a heartbeat reporting a CAPTCHA failure count of
-1 (admitted by the request schema) returns and persists score -45,
violating the claimed invariant 0 ≤ score. -/
theorem C1_negative_captcha_count_counterexample :
    (process_heartbeat ipOracleFalse false none sessN0 hbNegCaptcha).respScore =
       some (-45) ∧
    (process_heartbeat ipOracleFalse false none sessN0 hbNegCaptcha).sessionScore =
       some (-45) ∧
    ((-45 : ℚ) < 0) := by
  refine ⟨?_, ?_, by norm_num⟩ <;> rw [ph_eval_negCaptcha] <;> rfl

/-- C2 (amended): a device-fingerprint mismatch with every other signal
neutral yields score exactly 40, and the recommended action is
INCREASE_MONITORING (40 is at least the monitoring threshold 20), not
CONTINUE as claimed. -/
theorem C2_device_mismatch_forty_monitoring (f : String → String → Bool)
    (sfp cfp ip : String) (age kd md ent vv : ℚ) (fp : Option Bool) (cr : Bool)
    (h1 : sfp ≠ "") (h2 : cfp ≠ "") (h3 : sfp ≠ cfp)
    (hfp : fp ≠ some false) (hkd : kd ≤ 2) (hmd : md ≤ 2)
    (hent : 1/2 ≤ ent) (hvv : 1/5 ≤ vv) (hage : age ≤ 12) :
    (calculate_threat_score f
      { device_fingerprint := some sfp, ip_address := some ip,
        created_age_hours := some age, stored_face_embedding := none }
      { device_fingerprint := some cfp, ip_address := some ip,
        keystroke_deviation := kd, mouse_deviation := md, face_present := fp,
        multiple_faces := false, camera_ready := cr, camera_blocked := false,
        facial_captcha_failed := 0, mouse_entropy := ent,
        mouse_velocity_variance := vv, live_face_embedding := none } 0).score = 40 ∧
    (calculate_threat_score f
      { device_fingerprint := some sfp, ip_address := some ip,
        created_age_hours := some age, stored_face_embedding := none }
      { device_fingerprint := some cfp, ip_address := some ip,
        keystroke_deviation := kd, mouse_deviation := md, face_present := fp,
        multiple_faces := false, camera_ready := cr, camera_blocked := false,
        facial_captcha_failed := 0, mouse_entropy := ent,
        mouse_velocity_variance := vv, live_face_embedding := none } 0).recommended_action =
      "INCREASE_MONITORING" := by
  have htot : engineTotal f
      { device_fingerprint := some sfp, ip_address := some ip,
        created_age_hours := some age, stored_face_embedding := none }
      { device_fingerprint := some cfp, ip_address := some ip,
        keystroke_deviation := kd, mouse_deviation := md, face_present := fp,
        multiple_faces := false, camera_ready := cr, camera_blocked := false,
        facial_captcha_failed := 0, mouse_entropy := ent,
        mouse_velocity_variance := vv, live_face_embedding := none } 0 = 40 := by
    unfold engineTotal
    rw [check_device_mismatch_forty sfp cfp h1 h2 h3, check_ip_drift_self,
      check_camera_anomalies_zero _ rfl rfl hfp,
      check_behavioral_anomalies_zero kd md hkd hmd,
      check_mouse_behavior_zero ent vv hent hvv,
      check_session_age_young age hage]
    norm_num [check_face_mismatch]
  have hcap : cappedScore f
      { device_fingerprint := some sfp, ip_address := some ip,
        created_age_hours := some age, stored_face_embedding := none }
      { device_fingerprint := some cfp, ip_address := some ip,
        keystroke_deviation := kd, mouse_deviation := md, face_present := fp,
        multiple_faces := false, camera_ready := cr, camera_blocked := false,
        facial_captcha_failed := 0, mouse_entropy := ent,
        mouse_velocity_variance := vv, live_face_embedding := none } 0 = 40 := by
    unfold cappedScore
    rw [htot]
    norm_num
  constructor
  · simp only [calculate_threat_score, hcap]
    rw [show (40 : ℚ) = ((40 : ℕ) : ℚ) by norm_num, round2_natCast]
  · simp only [calculate_threat_score, hcap]
    norm_num [get_recommended_action, THREAT_LOCK_THRESHOLD, THREAT_LOGOUT_THRESHOLD]

/-- C2 witness: the conclusion at a concrete mismatching pair of
fingerprints with all other signals neutral. -/
theorem C2_device_mismatch_forty_monitoring_witness :
    (calculate_threat_score ipOracleFalse
      { device_fingerprint := some "fp", ip_address := some "ip",
        created_age_hours := some 1, stored_face_embedding := none }
      { device_fingerprint := some "other-fp", ip_address := some "ip",
        keystroke_deviation := 0, mouse_deviation := 0, face_present := some true,
        multiple_faces := false, camera_ready := true, camera_blocked := false,
        facial_captcha_failed := 0, mouse_entropy := 1,
        mouse_velocity_variance := 1, live_face_embedding := none } 0).score = 40 ∧
    (calculate_threat_score ipOracleFalse
      { device_fingerprint := some "fp", ip_address := some "ip",
        created_age_hours := some 1, stored_face_embedding := none }
      { device_fingerprint := some "other-fp", ip_address := some "ip",
        keystroke_deviation := 0, mouse_deviation := 0, face_present := some true,
        multiple_faces := false, camera_ready := true, camera_blocked := false,
        facial_captcha_failed := 0, mouse_entropy := 1,
        mouse_velocity_variance := 1, live_face_embedding := none } 0).recommended_action =
      "INCREASE_MONITORING" :=
  C2_device_mismatch_forty_monitoring ipOracleFalse "fp" "other-fp" "ip" 1 0 0 1 1
    (some true) true (by decide) (by decide) (by decide) (by decide)
    (by norm_num) (by norm_num) (by norm_num) (by norm_num) (by norm_num)

/-- C2 counterexample: at the concrete device-mismatch input the engine
returns score 40 with action INCREASE_MONITORING, so the claimed action
CONTINUE is wrong. -/
theorem C2_action_not_continue_counterexample :
    (calculate_threat_score ipOracleFalse sdDevMismatch csDevMismatch 0).score = 40 ∧
    (calculate_threat_score ipOracleFalse sdDevMismatch csDevMismatch 0).recommended_action =
      "INCREASE_MONITORING" ∧
    ¬((calculate_threat_score ipOracleFalse sdDevMismatch csDevMismatch 0).recommended_action =
      "CONTINUE") := by
  have hne : ¬("fp" : String) = "other-fp" := by decide
  have hne2 : ¬("fp" : String) = "" := by decide
  have hne3 : ¬("other-fp" : String) = "" := by decide
  norm_num [hne, hne2, hne3, calculate_threat_score, engineTriggers, cappedScore, engineTotal,
    check_device_mismatch, check_ip_drift, check_camera_anomalies,
    check_behavioral_anomalies, check_session_age, check_face_mismatch,
    check_mouse_behavior, get_recommended_action, round2, rhe,
    THREAT_LOCK_THRESHOLD, THREAT_LOGOUT_THRESHOLD, sdDevMismatch, csDevMismatch,
    ipOracleFalse]
  decide

/-- C3: (i) on an unlocked session, any heartbeat with the camera ready
and the face absent that brings the no-face streak to 5 is answered
with action LOCK_SESSION, a score floored at the lock threshold, a "No
face detected" trigger, and persists is_locked and
requires_facial_captcha true, whatever the other signals contribute;
(ii) any completed heartbeat on which the condition is absent persists
streak 0; (iii) concretely, five consecutive no-face heartbeats from
the neutral session lock it on the fifth with score 75, while the same
run with a face-present heartbeat interposed after four frames ends
unlocked with streak 4. -/
theorem C3_no_face_streak_five_locks :
    (∀ (f : String → String → Bool) (e : Bool) (d : Option (List ℚ))
      (s : SessionState) (hb : HeartbeatSignals),
      s.is_locked = false → hb.camera_ready = true → hb.face_present = some false →
      4 ≤ s.no_face_streak →
      ∃ resp, (process_heartbeat f e d s hb).resp = some resp ∧
        resp.recommended_action = "LOCK_SESSION" ∧
        THREAT_LOCK_THRESHOLD ≤ resp.score ∧
        "No face detected" ∈ resp.triggers ∧
        (process_heartbeat f e d s hb).lockedAfter = some true ∧
        (process_heartbeat f e d s hb).captchaAfter = some true) ∧
    (∀ (f : String → String → Bool) (e : Bool) (d : Option (List ℚ))
      (s : SessionState) (hb : HeartbeatSignals) (s' : SessionState),
      ¬(hb.camera_ready = true ∧ hb.face_present = some false) →
      afterOk (process_heartbeat f e d s hb) = some s' →
      s'.no_face_streak = 0) ∧
    runHeartbeats ipOracleFalse false none (some sessN0) (List.replicate 5 hbNoFace) =
      some sessNF5 ∧
    sessNF5.is_locked = true ∧
    sessNF5.requires_facial_captcha = true ∧
    (process_heartbeat ipOracleFalse false none sessNF4 hbNoFace).resp = some respLock5 ∧
    respLock5.recommended_action = "LOCK_SESSION" ∧
    respLock5.score = THREAT_LOCK_THRESHOLD ∧
    "No face detected" ∈ respLock5.triggers ∧
    runHeartbeats ipOracleFalse false none (some sessN0)
      (List.replicate 4 hbNoFace ++ [hbNeutral] ++ List.replicate 4 hbNoFace) =
      some sessNF4 ∧
    sessNF4.is_locked = false ∧
    sessNF4.no_face_streak = 4 := by
  refine ⟨ph_fifth_force, ph_streak_reset, run5_lock, rfl, rfl, ?_, rfl, rfl,
    by decide, run_mixed, rfl, rfl⟩
  rw [ph_eval_nf4]
  rfl

/-- C4: with an enrolled vector that decrypts, a submitted face below
the 0.55 distance threshold and a passing liveness check, the verdict
is PASS and the session update clears both requires_facial_captcha and
is_locked, whatever their prior values. -/
theorem C4_pass_clears_lock_and_captcha (uid : String) (stored : List ℚ) (rf : ℕ)
    (s : SessionState) (hist : List AttemptRecord) (req : CaptchaRequest)
    (hrep : hasAttempt hist uid req.challenge_id = false)
    (hrf : rf < MAX_CAPTCHA_ATTEMPTS)
    (hemb : (validate_embedding_quality req.face_embedding).1 = true)
    (hdist : distSq req.face_embedding stored < faceThresholdSq)
    (hres : req.challenge_result = true)
    (ht8 : req.timing_seconds ≤ 8)
    (ht05 : 1/2 ≤ req.timing_seconds)
    (hls : 7/10 ≤ req.liveness_score) :
    (verify_challenge uid true (some stored) true rf s hist req).verdict = some ("PASS") ∧
      (verify_challenge uid true (some stored) true rf s hist req).session.requires_facial_captcha =
        false ∧
      (verify_challenge uid true (some stored) true rf s hist req).session.is_locked = false := by
  have hfm : (if !true then true
      else if true then (verify_face_match req.face_embedding (some stored)).matched
      else true) = true := by
    simp [verify_face_match, FaceMatchOutcome.matched, hdist]
  have hlv := (vl_verified_iff req.challenge_result req.timing_seconds req.liveness_score).mpr
    ⟨hres, ht8, ht05, hls⟩
  rw [vc_pass_eq uid true (some stored) true rf s hist req hrep hrf hemb hfm hlv]
  exact ⟨rfl, rfl, rfl⟩

/-- C4 witness: a previously locked session is returned to unlocked,
captcha-free state by a matching, live submission. -/
theorem C4_pass_clears_lock_and_captcha_witness :
    (verify_challenge "u" true (some vecOne) true 0 sessLocked [] reqPass).verdict =
      some ("PASS") ∧
    (verify_challenge "u" true (some vecOne) true 0 sessLocked [] reqPass).session.requires_facial_captcha =
      false ∧
    (verify_challenge "u" true (some vecOne) true 0 sessLocked [] reqPass).session.is_locked =
      false :=
  C4_pass_clears_lock_and_captcha "u" vecOne 0 sessLocked [] reqPass
    rfl (by decide) (by set_option maxRecDepth 8000 in decide)
    (by rw [show reqPass.face_embedding = vecOne from rfl, distSq_self]
        norm_num [faceThresholdSq])
    rfl (by norm_num [reqPass]) (by norm_num [reqPass]) (by norm_num [reqPass])

/-- C5: with an enrolled vector that decrypts and a submitted face at
distance at least 0.55, the verdict is FAIL, exactly 45 is added to the
threat score capped at 100, and the session is locked exactly when the
new total reaches the lock threshold 75. -/
theorem C5_fail_adds_fortyfive_locks_iff (uid : String) (stored : List ℚ) (rf : ℕ)
    (s : SessionState) (hist : List AttemptRecord) (req : CaptchaRequest)
    (hrep : hasAttempt hist uid req.challenge_id = false)
    (hrf : rf < MAX_CAPTCHA_ATTEMPTS)
    (hemb : (validate_embedding_quality req.face_embedding).1 = true)
    (hdist : faceThresholdSq ≤ distSq req.face_embedding stored) :
    (verify_challenge uid true (some stored) true rf s hist req).verdict = some ("FAIL") ∧
      (verify_challenge uid true (some stored) true rf s hist req).session.threat_score =
        min (s.threat_score + 45) 100 ∧
      ((verify_challenge uid true (some stored) true rf s hist req).session.is_locked = true ↔
        THREAT_LOCK_THRESHOLD ≤ min (s.threat_score + 45) 100) := by
  have hfm : (if !true then true
      else if true then (verify_face_match req.face_embedding (some stored)).matched
      else true) = false := by
    simp [verify_face_match, FaceMatchOutcome.matched, not_lt.mpr hdist]
  rw [vc_fail_eq uid true (some stored) true rf s hist req hrep hrf hemb hfm]
  refine ⟨rfl, rfl, ?_⟩
  simp [decide_eq_true_iff]

/-- C5 witness: from threat score 40 a failed verification reaches 85
and locks the session. -/
theorem C5_fail_adds_fortyfive_locks_iff_witness :
    (verify_challenge "u" true (some vecOne) true 0 sessT40 [] reqFar).verdict =
      some ("FAIL") ∧
    (verify_challenge "u" true (some vecOne) true 0 sessT40 [] reqFar).session.threat_score =
      min (sessT40.threat_score + 45) 100 ∧
    ((verify_challenge "u" true (some vecOne) true 0 sessT40 [] reqFar).session.is_locked = true ↔
      THREAT_LOCK_THRESHOLD ≤ min (sessT40.threat_score + 45) 100) :=
  C5_fail_adds_fortyfive_locks_iff "u" vecOne 0 sessT40 [] reqFar
    rfl (by decide)
    (by norm_num [validate_embedding_quality, reqFar, reqPass, vecFar]
        simp)
    (by rw [show reqFar.face_embedding = vecFar from rfl, distSq_far]
        norm_num [faceThresholdSq])

/-- C6: (i) a challenge id that already has an attempt record for the
user is rejected as replay before any scoring, leaving both the session
and the attempt ledger untouched; (ii) every verification that returns
200 appends an attempt record for its challenge id, so a second
submission of that id is rejected: a challenge id is consumed at most
once per user. -/
theorem C6_challenge_replay_rejected_once :
    (∀ (uid : String) (e : Bool) (dec : Option (List ℚ)) (fr : Bool) (rf : ℕ)
      (s : SessionState) (hist : List AttemptRecord) (req : CaptchaRequest),
      hasAttempt hist uid req.challenge_id = true →
      verify_challenge uid e dec fr rf s hist req =
        { outcome := .error .replay, session := s, history := hist }) ∧
    (∀ (uid : String) (e : Bool) (dec : Option (List ℚ)) (fr : Bool) (rf : ℕ)
      (s : SessionState) (hist : List AttemptRecord) (req : CaptchaRequest)
      (resp : CaptchaResponse),
      (verify_challenge uid e dec fr rf s hist req).outcome = .ok resp →
      hasAttempt (verify_challenge uid e dec fr rf s hist req).history uid
        req.challenge_id = true) := by
  constructor
  · intro uid e dec fr rf s hist req hrep
    simp [verify_challenge, hrep]
  · intro uid e dec fr rf s hist req resp hok
    simp only [verify_challenge] at hok ⊢
    split_ifs at hok ⊢ <;>
      simp_all [hasAttempt, List.any_append]

/-- C7 (amended): every heartbeat that returns 200 emits, in program
order, first the websocket broadcast, then the behavioral-data insert,
then the session update — so the broadcast precedes persistence, but it
carries exactly the score that is subsequently persisted. -/
theorem C7_broadcast_precedes_persist_same_score (f : String → String → Bool)
    (e : Bool) (d : Option (List ℚ)) (s : SessionState) (hb : HeartbeatSignals)
    (resp : ThreatResponse)
    (hok : (process_heartbeat f e d s hb).outcome = .ok resp) :
    ∃ b, (process_heartbeat f e d s hb).trace =
      [.broadcast resp.score b, .insertBehavioral resp.score, .persistSession resp.score] := by
  simp only [process_heartbeat] at hok ⊢
  split_ifs at hok ⊢ with h1 h2
  simp only [Except.ok.injEq] at hok
  subst hok
  exact ⟨_, rfl⟩

/-- C7 witness: the trace of the neutral heartbeat, whose broadcast,
insert and persist all carry score 0. -/
theorem C7_broadcast_precedes_persist_same_score_witness :
    ∃ b, (process_heartbeat ipOracleFalse false none sessN0 hbNeutral).trace =
      [.broadcast respNeutral.score b, .insertBehavioral respNeutral.score,
        .persistSession respNeutral.score] :=
  C7_broadcast_precedes_persist_same_score ipOracleFalse false none sessN0 hbNeutral
    respNeutral (by rw [ph_eval_neutral])

/-- C7 counterexample: on the neutral heartbeat the broadcast sits at
trace index 0 and the session persist at index 2, so the broadcast is
not issued after the persisted update as claimed. -/
theorem C7_broadcast_before_persist_counterexample :
    ¬ broadcastOnlyAfterPersist
      (process_heartbeat ipOracleFalse false none sessN0 hbNeutral).trace := by
  intro h
  have h2 := h 0 2 0 false 0 (by rw [ph_eval_neutral]; rfl) (by rw [ph_eval_neutral]; rfl)
  omega

/-- C8 (amended): (i) in the face verification module a decryption
failure on the stored vector yields match false, zero similarity and
verdict DECRYPT_FAIL; (ii) in the CAPTCHA flow it therefore reaches the
FAIL branch, adding 45 to the threat score capped at 100 — never PASS
or HIGH_RISK; (iii) in the heartbeat path, however, a decryption
failure makes the stored vector absent and the face-mismatch rule
contributes 0 (treated as unverifiable, not as a mismatch). -/
theorem C8_decrypt_failure_fail_safe_captcha_only :
    (∀ live : List ℚ,
      verify_face_match live none = .decryptFail ∧
      (verify_face_match live none).matched = false ∧
      (verify_face_match live none).similarityIsZero = true ∧
      (verify_face_match live none).verdictStr = "DECRYPT_FAIL") ∧
    (∀ (uid : String) (rf : ℕ) (s : SessionState) (hist : List AttemptRecord)
      (req : CaptchaRequest),
      hasAttempt hist uid req.challenge_id = false →
      rf < MAX_CAPTCHA_ATTEMPTS →
      (validate_embedding_quality req.face_embedding).1 = true →
      (verify_challenge uid true none true rf s hist req).verdict = some ("FAIL") ∧
      (verify_challenge uid true none true rf s hist req).session.threat_score =
        min (s.threat_score + 45) 100) ∧
    (∀ (f : String → String → Bool) (s : SessionState) (hb : HeartbeatSignals)
      (resp : ThreatResponse),
      (process_heartbeat f true none s hb).outcome = .ok resp →
      resp.breakdown.face_mismatch = 0) := by
  refine ⟨fun live => ⟨rfl, rfl, rfl, rfl⟩, ?_, ph_decrypt_fail_rule_zero⟩
  intro uid rf s hist req hrep hrf hemb
  have hfm : (if !true then true
      else if true then (verify_face_match req.face_embedding none).matched
      else true) = false := by
    simp [verify_face_match, FaceMatchOutcome.matched]
  rw [vc_fail_eq uid true none true rf s hist req hrep hrf hemb hfm]
  exact ⟨rfl, rfl⟩

/-- C8 counterexample: a heartbeat carrying a live embedding while the
stored vector fails to decrypt scores 0 with a zero face-mismatch
contribution and no mismatch trigger — the decryption error is not
treated as a mismatch on this path. -/
theorem C8_heartbeat_decrypt_fail_open_counterexample :
    (process_heartbeat ipOracleFalse true none sessN0 hbLive).resp = some respNeutral ∧
    respNeutral.breakdown.face_mismatch = 0 ∧
    respNeutral.score = 0 ∧
    ¬("Live face does not match database" ∈ respNeutral.triggers) ∧
    hbLive.live_face_embedding = some vecOne := by
  refine ⟨?_, rfl, rfl, by decide, rfl⟩
  rw [ph_eval_live]
  rfl

/-- C9: liveness is verified exactly when the action completed, the
timing lies within [0.5, 8] seconds and the liveness score is at least
0.7; after a completed action the reported confidence is the raw score,
and an uncompleted action fails immediately with the
action-not-completed reason and confidence 0. -/
theorem C9_verify_liveness_characterization (r : Bool) (t sc : ℚ) :
    ((verify_liveness r t sc).verified = true ↔
      (r = true ∧ t ≤ 8 ∧ 1/2 ≤ t ∧ 7/10 ≤ sc)) ∧
    (verify_liveness true t sc).confidence = sc ∧
    verify_liveness false t sc =
      { verified := false, confidence := 0, reason := "Challenge action not completed" } :=
  ⟨vl_verified_iff r t sc, vl_conf t sc, vl_false t sc⟩

/-- C10: on a FAIL verdict the session lock flag is overwritten with
(new total at least the lock threshold), so when the new total stays
below 75 a previously locked session comes out unlocked, while
requires_facial_captcha is left exactly as it was. -/
theorem C10_fail_overwrites_lock_flag (uid : String) (stored : List ℚ) (rf : ℕ)
    (s : SessionState) (hist : List AttemptRecord) (req : CaptchaRequest)
    (hrep : hasAttempt hist uid req.challenge_id = false)
    (hrf : rf < MAX_CAPTCHA_ATTEMPTS)
    (hemb : (validate_embedding_quality req.face_embedding).1 = true)
    (hdist : faceThresholdSq ≤ distSq req.face_embedding stored)
    (hlow : min (s.threat_score + 45) 100 < THREAT_LOCK_THRESHOLD) :
    (verify_challenge uid true (some stored) true rf s hist req).session.is_locked = false ∧
      (verify_challenge uid true (some stored) true rf s hist req).session.requires_facial_captcha =
        s.requires_facial_captcha := by
  have hfm : (if !true then true
      else if true then (verify_face_match req.face_embedding (some stored)).matched
      else true) = false := by
    simp [verify_face_match, FaceMatchOutcome.matched, not_lt.mpr hdist]
  rw [vc_fail_eq uid true (some stored) true rf s hist req hrep hrf hemb hfm]
  refine ⟨?_, rfl⟩
  exact decide_eq_false (not_le.mpr hlow)

/-- C10 witness: a locked session at threat 10 is unlocked by a failed
verification (new total 55 < 75), its captcha-required flag still
true. -/
theorem C10_fail_overwrites_lock_flag_witness :
    (verify_challenge "u" true (some vecOne) true 0 sessLocked [] reqFar).session.is_locked =
      false ∧
    (verify_challenge "u" true (some vecOne) true 0 sessLocked [] reqFar).session.requires_facial_captcha =
      sessLocked.requires_facial_captcha :=
  C10_fail_overwrites_lock_flag "u" vecOne 0 sessLocked [] reqFar
    rfl (by decide)
    (by norm_num [validate_embedding_quality, reqFar, reqPass, vecFar]
        simp)
    (by rw [show reqFar.face_embedding = vecFar from rfl, distSq_far]
        norm_num [faceThresholdSq])
    (by norm_num [sessLocked, sessN0, THREAT_LOCK_THRESHOLD])

end ISB
